import Mathlib

/-
Shallow embedding of the Solana payment gateway demo application.

Conventions of the embedding:
- JavaScript numbers are modelled as exact rationals (ℚ); `Math.floor` is `Int.floor`.
- Async functions that can only fail by a `throw` in a `try` block are modelled as
  `Except String _`; a `try` body with no throwing operation is a plain `.ok`.
- Fields of returned objects that the source fills with PRNG output (mock transaction
  signatures, random AMM keys of the display-only `routePlan`) and constant display
  fields (`swapMode`, `contextSlot`) are omitted: no claim refers to them.
- React `useState` setters are modelled by explicit state passing: a handler takes the
  current state and returns the next state.
-/

/-- Token metadata record (`TokenInfo` in `types.ts`). -/
structure TokenInfo where
  symbol : String
  name : String
  mint : String
  decimals : Nat
  logoURI : Option String
deriving DecidableEq

/-- The native-SOL registry entry (`TOKENS.SOL` in `solana.ts`). -/
def TOKENS_SOL : TokenInfo :=
  ⟨"SOL", "Solana", "So11111111111111111111111111111111111111112", 9,
    some "https://raw.githubusercontent.com/solana-labs/token-list/main/assets/mainnet/So11111111111111111111111111111111111111112/logo.png"⟩

/-- The USDC registry entry (`TOKENS.USDC`). -/
def TOKENS_USDC : TokenInfo :=
  ⟨"USDC", "USD Coin", "EPjFWdd5AufqSSqeM2qN1xzybapC8G4wEGGkZwyTDt1v", 6,
    some "https://raw.githubusercontent.com/solana-labs/token-list/main/assets/mainnet/EPjFWdd5AufqSSqeM2qN1xzybapC8G4wEGGkZwyTDt1v/logo.png"⟩

/-- The USDT registry entry (`TOKENS.USDT`). -/
def TOKENS_USDT : TokenInfo :=
  ⟨"USDT", "Tether", "Es9vMFrzaCERmJfrF4H2FYD4KCoNkY11McCe8BenwNYB", 6,
    some "https://raw.githubusercontent.com/solana-labs/token-list/main/assets/mainnet/Es9vMFrzaCERmJfrF4H2FYD4KCoNkY11McCe8BenwNYB/logo.png"⟩

/-- The BONK registry entry (`TOKENS.BONK`). -/
def TOKENS_BONK : TokenInfo :=
  ⟨"BONK", "Bonk", "DezXAZ8z7PnrnRJjz3wXBoRgixCa6xjnB7YaB1pPB263", 5,
    some "https://raw.githubusercontent.com/solana-labs/token-list/main/assets/mainnet/DezXAZ8z7PnrnRJjz3wXBoRgixCa6xjnB7YaB1pPB263/logo.png"⟩

/-- The JUP registry entry (`TOKENS.JUP`). -/
def TOKENS_JUP : TokenInfo :=
  ⟨"JUP", "Jupiter", "JUPyiwrYJFskUPiHa7hkeR8VUtAeFoSYbKedZNsDvCN", 6,
    some "https://raw.githubusercontent.com/solana-labs/token-list/main/assets/mainnet/JUPyiwrYJFskUPiHa7hkeR8VUtAeFoSYbKedZNsDvCN/logo.png"⟩

/-- The token registry `TOKENS` of `solana.ts`, in `Object.values` order. -/
def TOKENS : List TokenInfo :=
  [TOKENS_SOL, TOKENS_USDC, TOKENS_USDT, TOKENS_BONK, TOKENS_JUP]

/-- Constant `LAMPORTS_PER_SOL` from `@solana/web3.js`. -/
def LAMPORTS_PER_SOL : ℚ := 1000000000

/-- The fixed symbol-pair `rates` table inside `getMockExchangeRate` (`jupiter.ts`).
`none` models an absent record key. Every present rate is nonzero, so JavaScript
truthiness of `rates[a]?.[b]` coincides with presence of the entry. -/
def rateEntry (fromSymbol toSymbol : String) : Option ℚ :=
  if fromSymbol = "SOL" then
    if toSymbol = "USDC" then some 150.25
    else if toSymbol = "USDT" then some 150.15
    else if toSymbol = "BONK" then some 1000000
    else none
  else if fromSymbol = "USDC" then
    if toSymbol = "SOL" then some (1 / 150.25)
    else if toSymbol = "USDT" then some 0.998
    else if toSymbol = "BONK" then some 6500
    else none
  else if fromSymbol = "USDT" then
    if toSymbol = "SOL" then some (1 / 150.15)
    else if toSymbol = "USDC" then some 1.002
    else if toSymbol = "BONK" then some 6520
    else none
  else if fromSymbol = "BONK" then
    if toSymbol = "SOL" then some 0.000001
    else if toSymbol = "USDC" then some 0.00015
    else if toSymbol = "USDT" then some 0.00015
    else none
  else none

/-- Function `getMockExchangeRate` from `jupiter.ts`: direct entry, else inverse of the
reverse entry, else a two-hop bridge through USDC, else the fallback rate 1. -/
def getMockExchangeRate (fromSymbol toSymbol : String) : ℚ :=
  match rateEntry fromSymbol toSymbol with
  | some direct => direct
  | none =>
    match rateEntry toSymbol fromSymbol with
    | some reverse => 1 / reverse
    | none =>
      match rateEntry fromSymbol "USDC", rateEntry "USDC" toSymbol with
      | some leg1, some leg2 => leg1 * leg2
      | _, _ => 1

/-- The quote object shape shared by `getQuote` (`jupiter.ts`) and the same-token
quote built inline by the `PaymentForm` quote effect (`PaymentForm.tsx`). The
nested `platformFee` object is flattened to `platformFeeAmount`/`feeBps`; the
same-token quote object omits `otherAmountThreshold` and `slippageBps`, hence the
`Option` types. -/
structure Quote where
  inputMint : String
  outputMint : String
  inAmount : ℚ
  outAmount : ℚ
  otherAmountThreshold : Option ℚ
  slippageBps : Option Nat
  platformFeeAmount : ℚ
  feeBps : Nat
  priceImpactPct : ℚ
deriving DecidableEq

/-- Function `getQuote` from `jupiter.ts`. The simulated-quote body contains no throwing
operation, so the surrounding try/catch never produces the
"Failed to get quote from Jupiter" error: the result is always `.ok`. -/
def getQuote (inputToken outputToken : TokenInfo) (amount : ℚ) : Except String Quote :=
  let mockRate := getMockExchangeRate inputToken.symbol outputToken.symbol
  let outputAmount := amount * mockRate
  let fee := amount * 0.003
  .ok
    { inputMint := inputToken.mint
      outputMint := outputToken.mint
      inAmount := amount * 10 ^ inputToken.decimals
      outAmount := ((Int.floor (outputAmount * 10 ^ outputToken.decimals) : ℤ) : ℚ)
      otherAmountThreshold :=
        some ((Int.floor (outputAmount * 0.995 * 10 ^ outputToken.decimals) : ℤ) : ℚ)
      slippageBps := some 50
      platformFeeAmount := ((Int.floor (fee * 10 ^ inputToken.decimals) : ℤ) : ℚ)
      feeBps := 30
      priceImpactPct := 0.1 }

/-- Result of `executeSwap` (`SwapResult` in `types.ts`); the PRNG-generated
`txSignature` field is omitted. -/
structure SwapResult where
  inputAmount : ℚ
  outputAmount : ℚ
  inputToken : String
  outputToken : String
  fee : ℚ
deriving DecidableEq

/-- Function `executeSwap` from `jupiter.ts`; the source default argument is
`slippageBps = 50` and callers rely on it. -/
def executeSwap (inputToken outputToken : TokenInfo) (amount : ℚ) (slippageBps : Nat) :
    SwapResult :=
  let mockRate := getMockExchangeRate inputToken.symbol outputToken.symbol
  let outputAmount := amount * mockRate * (1 - (slippageBps : ℚ) / 10000)
  { inputAmount := amount
    outputAmount := outputAmount
    inputToken := inputToken.symbol
    outputToken := outputToken.symbol
    fee := amount * 0.003 }

/-- The quote object the `PaymentForm` quote effect builds inline when
`selectedToken === preferredToken` (`PaymentForm.tsx`, "No swap needed" branch). -/
def sameTokenQuote (amount : ℚ) (selectedTokenInfo preferredTokenInfo : TokenInfo) : Quote :=
  { inputMint := selectedTokenInfo.mint
    outputMint := preferredTokenInfo.mint
    inAmount := amount * 10 ^ selectedTokenInfo.decimals
    outAmount := amount * 10 ^ preferredTokenInfo.decimals
    otherAmountThreshold := none
    slippageBps := none
    platformFeeAmount := 0
    feeBps := 0
    priceImpactPct := 0 }

/-- The `fetchQuote` closure of the `PaymentForm` quote effect: for positive
amounts it uses the inline same-token quote when the mints match and otherwise
calls `getQuote`, storing `none` when that call fails (the guard on the mint
strings being non-empty always holds for registry tokens and is represented by
the mint comparison itself). -/
def fetchQuote (amount : ℚ) (selectedTokenInfo preferredTokenInfo : TokenInfo) : Option Quote :=
  if 0 < amount then
    if selectedTokenInfo.mint = preferredTokenInfo.mint then
      some (sameTokenQuote amount selectedTokenInfo preferredTokenInfo)
    else
      (getQuote selectedTokenInfo preferredTokenInfo amount).toOption
  else none

/-- One instruction added to the transaction built by `createPaymentTransaction`
(`solana.ts`). The associated-token-account derivation of `@solana/spl-token` is an
opaque deterministic function of (mint, owner); it is modelled by `ataOf` below. -/
inductive Instruction where
  | setComputeUnitLimit (units : Nat)
  | systemTransfer (fromPubkey toPubkey : String) (lamports : ℤ)
  | createAssociatedTokenAccount (payer associatedToken owner mint : String)
  | splTransfer (source destination owner : String) (amount : ℤ)
deriving DecidableEq

/-- Deterministic model of `getAssociatedTokenAddress(mint, owner)`: an injective
pairing of the mint and owner strings. -/
def ataOf (mint owner : String) : String := "ata/" ++ mint ++ "/" ++ owner

/-- Function `createPaymentTransaction` from `solana.ts`. The network probe
`getAccount(connection, toTokenAccount)` is modelled by the `toAccountExists`
argument; a thrown error is an `Except.error`. The returned list is the
transaction's instruction sequence in the order the source `add`s them. -/
def createPaymentTransaction (amount : ℚ) (tokenMint : String)
    (fromWallet toWallet : String) (toAccountExists : Bool) :
    Except String (List Instruction) :=
  let budget := Instruction.setComputeUnitLimit 200000
  if tokenMint = TOKENS_SOL.mint then
    .ok [budget,
      Instruction.systemTransfer fromWallet toWallet (Int.floor (amount * LAMPORTS_PER_SOL))]
  else
    let fromTokenAccount := ataOf tokenMint fromWallet
    let toTokenAccount := ataOf tokenMint toWallet
    let createOps :=
      if toAccountExists then []
      else [Instruction.createAssociatedTokenAccount fromWallet toTokenAccount toWallet tokenMint]
    match TOKENS.find? (fun t => t.mint = tokenMint) with
    | none => .error ("Token info not found for mint: " ++ tokenMint)
    | some tokenInfo =>
      .ok ([budget] ++ createOps ++
        [Instruction.splTransfer fromTokenAccount toTokenAccount fromWallet
          (Int.floor (amount * 10 ^ tokenInfo.decimals))])

/-- Payment status enum from `types.ts`. -/
inductive PaymentStatus where
  | pending
  | processing
  | completed
  | failed
deriving DecidableEq

/-- Record `Payment` from `types.ts`. -/
structure Payment where
  id : String
  amount : ℚ
  token : String
  status : PaymentStatus
  timestamp : Nat
  merchantId : String
  customerWallet : Option String
  txSignature : Option String
deriving DecidableEq

/-- Function `handlePaymentComplete` from `App.tsx`: `setPayments([...payments, payment])`,
the only operation in the application that writes the payment list. -/
def handlePaymentComplete (payments : List Payment) (payment : Payment) : List Payment :=
  payments ++ [payment]

/-- The `paymentStatus` state values of `PaymentForm.tsx`. -/
inductive FormStatus where
  | idle
  | quoting
  | processing
  | confirming
  | completed
  | failed
deriving DecidableEq

/-- Result state of one run of `handleSubmit`: the payment list, the form's
`paymentStatus`, the `error` message and the `success` flag after the handler
returns. -/
structure SubmitOutcome where
  payments : List Payment
  paymentStatus : FormStatus
  error : Option String
  success : Bool
deriving DecidableEq

/-- The try-block of `handleSubmit` (`PaymentForm.tsx`): swap path when the
selected mint differs from the merchant's preferred mint, direct path otherwise.
`sendResult` models the outcome of `mockSendTransaction` (its signature is PRNG
output); any thrown error lands in the catch block, which records no payment and
sets the status to `failed`. -/
def handleSubmitTry (pk : String) (amount : ℚ)
    (selectedTokenInfo preferredTokenInfo : TokenInfo) (merchantAddress : String)
    (toAccountExists : Bool) (sendResult : Except String String)
    (paymentId : String) (now : Nat) (payments : List Payment) : SubmitOutcome :=
  if selectedTokenInfo.mint ≠ preferredTokenInfo.mint then
    let swapResult := executeSwap selectedTokenInfo preferredTokenInfo amount 50
    match createPaymentTransaction swapResult.outputAmount preferredTokenInfo.mint
        pk merchantAddress toAccountExists with
    | .error _ => ⟨payments, .failed, some "Payment failed. Please try again.", false⟩
    | .ok _ =>
      match sendResult with
      | .error _ => ⟨payments, .failed, some "Payment failed. Please try again.", false⟩
      | .ok sig =>
        let payment : Payment :=
          ⟨paymentId, swapResult.outputAmount, preferredTokenInfo.mint, .completed,
            now, merchantAddress, some pk, some sig⟩
        ⟨handlePaymentComplete payments payment, .completed, none, true⟩
  else
    match createPaymentTransaction amount selectedTokenInfo.mint
        pk merchantAddress toAccountExists with
    | .error _ => ⟨payments, .failed, some "Payment failed. Please try again.", false⟩
    | .ok _ =>
      match sendResult with
      | .error _ => ⟨payments, .failed, some "Payment failed. Please try again.", false⟩
      | .ok sig =>
        let payment : Payment :=
          ⟨paymentId, amount, selectedTokenInfo.mint, .completed,
            now, merchantAddress, some pk, some sig⟩
        ⟨handlePaymentComplete payments payment, .completed, none, true⟩

/-- Function `handleSubmit` from `PaymentForm.tsx`: the three guard clauses (wallet
connected, quote present, amount within the last observed balance) followed by
the try-block. Guard rejections leave the payment list and the prior form status
unchanged. -/
def handleSubmit (publicKey : Option String) (quote : Option Quote)
    (tokenBalance : Option ℚ) (amount : ℚ)
    (selectedTokenInfo preferredTokenInfo : TokenInfo) (merchantAddress : String)
    (toAccountExists : Bool) (sendResult : Except String String)
    (paymentId : String) (now : Nat) (payments : List Payment)
    (priorStatus : FormStatus) : SubmitOutcome :=
  match publicKey with
  | none => ⟨payments, priorStatus, some "Please connect your wallet first", false⟩
  | some pk =>
    match quote with
    | none => ⟨payments, priorStatus, some "Failed to get quote. Please try again.", false⟩
    | some _ =>
      match tokenBalance with
      | some balance =>
        if balance < amount then
          ⟨payments, priorStatus, some "Insufficient balance.", false⟩
        else
          handleSubmitTry pk amount selectedTokenInfo preferredTokenInfo merchantAddress
            toAccountExists sendResult paymentId now payments
      | none =>
        handleSubmitTry pk amount selectedTokenInfo preferredTokenInfo merchantAddress
          toAccountExists sendResult paymentId now payments

/-- The rate-resolution order exactly as the specification words it: the direct
entry in the fixed table if present; otherwise the reciprocal of the inverse
entry if present; otherwise the two-hop product through the reference stablecoin
USDC if both legs exist; otherwise exactly 1. -/
def specResolvedRate (fromSymbol toSymbol : String) : ℚ :=
  match rateEntry fromSymbol toSymbol with
  | some direct => direct
  | none =>
    match rateEntry toSymbol fromSymbol with
    | some inverseRate => 1 / inverseRate
    | none =>
      match rateEntry fromSymbol "USDC", rateEntry "USDC" toSymbol with
      | some legFromRef, some legRefTo => legFromRef * legRefTo
      | _, _ => 1

/-- C6: for every pair of distinct token symbols, the exchange rate is resolved
in this order: the direct entry of the fixed table if present; otherwise the
reciprocal of the inverse entry if present; otherwise the two-hop product
through the reference stablecoin USDC if both legs exist; otherwise exactly 1.
`specResolvedRate` is the resolution order as the specification words it. -/
theorem rate_resolution_order (a b : String) (_h : a ≠ b) :
    getMockExchangeRate a b = specResolvedRate a b := rfl

theorem rate_resolution_order_witness :
    "SOL" ≠ "USDC" ∧ getMockExchangeRate "SOL" "USDC" = specResolvedRate "SOL" "USDC" :=
  ⟨by decide, rate_resolution_order "SOL" "USDC" (by decide)⟩

/-- C7: for every fungible (non-native) registry token, `createPaymentTransaction`
returns, in order, the budget-reservation instruction, then a create-holding-account
instruction exactly when the receiver's associated token account does not exist,
then a transfer of `floor(amount * 10 ^ decimals)` base units — three instructions
when the receiver's account is absent, two when it exists. -/
theorem fungible_transfer_sequence (ti : TokenInfo) (hmem : ti ∈ TOKENS)
    (hne : ti.mint ≠ TOKENS_SOL.mint) (amount : ℚ) (fromWallet toWallet : String)
    (toAccountExists : Bool) :
    createPaymentTransaction amount ti.mint fromWallet toWallet toAccountExists
      = .ok ([Instruction.setComputeUnitLimit 200000]
          ++ (if toAccountExists then []
              else [Instruction.createAssociatedTokenAccount fromWallet
                      (ataOf ti.mint toWallet) toWallet ti.mint])
          ++ [Instruction.splTransfer (ataOf ti.mint fromWallet) (ataOf ti.mint toWallet)
                fromWallet (Int.floor (amount * 10 ^ ti.decimals))])
    ∧ (createPaymentTransaction amount ti.mint fromWallet toWallet toAccountExists).toOption.map
        List.length = some (if toAccountExists then 2 else 3) := by
  simp only [TOKENS, List.mem_cons, List.not_mem_nil, or_false] at hmem
  rcases hmem with h | h | h | h | h <;> subst h <;>
    first
      | exact absurd rfl hne
      | cases toAccountExists <;> exact ⟨rfl, rfl⟩

theorem fungible_transfer_sequence_witness :
    TOKENS_USDC ∈ TOKENS ∧ TOKENS_USDC.mint ≠ TOKENS_SOL.mint ∧
    createPaymentTransaction 5 TOKENS_USDC.mint "from" "to" false
      = .ok ([Instruction.setComputeUnitLimit 200000]
          ++ [Instruction.createAssociatedTokenAccount "from"
                (ataOf TOKENS_USDC.mint "to") "to" TOKENS_USDC.mint]
          ++ [Instruction.splTransfer (ataOf TOKENS_USDC.mint "from")
                (ataOf TOKENS_USDC.mint "to") "from"
                (Int.floor ((5 : ℚ) * 10 ^ TOKENS_USDC.decimals))]) :=
  ⟨by decide, by decide,
    (fungible_transfer_sequence TOKENS_USDC (by decide) (by decide) 5 "from" "to" false).1⟩

/-- C8: for the native asset, `createPaymentTransaction` with amount 2.75 returns
exactly two instructions — the budget reservation followed by a system transfer of
`floor(2.75 * LAMPORTS_PER_SOL) = 2750000000` lamports from sender to receiver —
and the budget-reservation instruction is first in every successfully built
transaction. -/
theorem native_transfer_and_budget_first :
    (∀ fromWallet toWallet toAccountExists,
      createPaymentTransaction 2.75 TOKENS_SOL.mint fromWallet toWallet toAccountExists
        = .ok [Instruction.setComputeUnitLimit 200000,
            Instruction.systemTransfer fromWallet toWallet 2750000000])
    ∧ (∀ amount tokenMint fromWallet toWallet toAccountExists instrs,
        createPaymentTransaction amount tokenMint fromWallet toWallet toAccountExists
          = .ok instrs →
        instrs.head? = some (Instruction.setComputeUnitLimit 200000)) := by
  constructor
  · intro fromWallet toWallet toAccountExists
    with_unfolding_all rfl
  · intro amount tokenMint fromWallet toWallet toAccountExists instrs h
    unfold createPaymentTransaction at h
    split at h
    · cases h
      rfl
    · split at h <;> split at h <;> (cases h; try rfl)

theorem native_transfer_and_budget_first_witness :
    createPaymentTransaction 2.75 TOKENS_SOL.mint "A" "B" true
      = .ok [Instruction.setComputeUnitLimit 200000,
          Instruction.systemTransfer "A" "B" 2750000000]
    ∧ ([Instruction.setComputeUnitLimit 200000,
        Instruction.systemTransfer "A" "B" 2750000000] : List Instruction).head?
      = some (Instruction.setComputeUnitLimit 200000) :=
  ⟨native_transfer_and_budget_first.1 "A" "B" true,
    native_transfer_and_budget_first.2 2.75 TOKENS_SOL.mint "A" "B" true _
      (native_transfer_and_budget_first.1 "A" "B" true)⟩

/-- C9: `createPaymentTransaction` with amount 0.0000001 of USDC (6 decimals)
produces a transfer instruction of exactly 0 base units: the amount is floored to
integer base units and the sub-unit remainder is dropped. -/
theorem subunit_amount_floors_to_zero :
    TOKENS_USDC.decimals = 6
    ∧ createPaymentTransaction 0.0000001 TOKENS_USDC.mint "sender" "receiver" true
      = .ok [Instruction.setComputeUnitLimit 200000,
          Instruction.splTransfer (ataOf TOKENS_USDC.mint "sender")
            (ataOf TOKENS_USDC.mint "receiver") "sender" 0] := by
  exact ⟨rfl, by with_unfolding_all rfl⟩

/-- C10: recording a completed payment appends the new record at the end of the
in-memory payment list and leaves every previously recorded payment unchanged;
`handlePaymentComplete` is the only operation that writes the list and it only
appends. -/
theorem handlePaymentComplete_appends (payments : List Payment) (payment : Payment) :
    handlePaymentComplete payments payment = payments ++ [payment]
    ∧ (handlePaymentComplete payments payment).take payments.length = payments
    ∧ (handlePaymentComplete payments payment).length = payments.length + 1
    ∧ (handlePaymentComplete payments payment).getLast? = some payment := by
  refine ⟨rfl, List.take_left _ _, by simp [handlePaymentComplete], by simp [handlePaymentComplete]⟩

/-- C1, counterexample: for the swap quote SOL→USDC at amount 1 the quote's
output amount is `floor(1 * 150.25 * 10^6) = 150250000` base units, which is not
`amount * rate * (1 - slippage)` under either the base-unit or the human-unit
reading: the slippage tolerance enters only the minimum-output threshold, not
the quoted output amount. -/
theorem quote_outAmount_lacks_slippage_counterexample :
    TOKENS_SOL.mint ≠ TOKENS_USDC.mint
    ∧ TOKENS_USDC.decimals = 6
    ∧ (getQuote TOKENS_SOL TOKENS_USDC 1).toOption.map Quote.outAmount = some 150250000
    ∧ getMockExchangeRate "SOL" "USDC" = 150.25
    ∧ ((Int.floor ((1 : ℚ) * 150.25 * (1 - 50 / 10000) * 10 ^ (6 : Nat)) : ℤ) : ℚ) = 149498750
    ∧ (150250000 : ℚ) ≠ 149498750
    ∧ (150250000 : ℚ) / 10 ^ (6 : Nat) ≠ 1 * 150.25 * (1 - 50 / 10000) := by
  refine ⟨by decide, rfl, by with_unfolding_all rfl, by with_unfolding_all rfl,
    by with_unfolding_all rfl, by norm_num, by norm_num⟩

/-- C1, amended: when a swap is simulated, `executeSwap`'s output amount equals
`amount * rate * (1 - slippageBps/10000)`, and the quote's minimum-output
threshold equals `floor(amount * rate * 0.995 * 10^decimals)`, while the quote's
output amount is `floor(amount * rate * 10^decimals)` with no slippage factor;
when the input and output tokens match, the form's quote passes the amount
through 1:1 (output amount equals input amount exactly). -/
theorem swap_and_quote_amount_formulas (tin tout : TokenInfo) (amount : ℚ)
    (slippageBps : Nat) :
    (executeSwap tin tout amount slippageBps).outputAmount
      = amount * getMockExchangeRate tin.symbol tout.symbol
          * (1 - (slippageBps : ℚ) / 10000)
    ∧ (getQuote tin tout amount).toOption.map Quote.outAmount
      = some ((Int.floor (amount * getMockExchangeRate tin.symbol tout.symbol
          * 10 ^ tout.decimals) : ℤ) : ℚ)
    ∧ (getQuote tin tout amount).toOption.map Quote.otherAmountThreshold
      = some (some ((Int.floor (amount * getMockExchangeRate tin.symbol tout.symbol
          * 0.995 * 10 ^ tout.decimals) : ℤ) : ℚ))
    ∧ (sameTokenQuote amount tin tin).outAmount = (sameTokenQuote amount tin tin).inAmount :=
  ⟨rfl, rfl, rfl, rfl⟩

/-- C2, counterexample: a payment flow that completes in failure (the send step
throws) creates no Payment record — the payment list stays empty and the form
status is `failed`, contradicting the claim that a record is created on both
success and failure. -/
theorem failed_flow_creates_no_payment_record :
    (handleSubmit (some "7UX2i7SucgLMQcfZ75s3VXmZZY4YRUyJN9X1RgfMoDUi")
        (some (sameTokenQuote 1 TOKENS_SOL TOKENS_SOL)) none 1
        TOKENS_SOL TOKENS_SOL "5YNmS1R9nNSCDzb5a7mMJ1dwK9uHeAAF4CmPEwKgVWc8" true
        (.error "Failed to send transaction") "payment-17" 5 [] .idle).paymentStatus
      = .failed
    ∧ (handleSubmit (some "7UX2i7SucgLMQcfZ75s3VXmZZY4YRUyJN9X1RgfMoDUi")
        (some (sameTokenQuote 1 TOKENS_SOL TOKENS_SOL)) none 1
        TOKENS_SOL TOKENS_SOL "5YNmS1R9nNSCDzb5a7mMJ1dwK9uHeAAF4CmPEwKgVWc8" true
        (.error "Failed to send transaction") "payment-17" 5 [] .idle).payments
      = [] := by
  exact ⟨by with_unfolding_all rfl, by with_unfolding_all rfl⟩

theorem handleSubmitTry_payments_cases (pk : String) (amount : ℚ)
    (sel pref : TokenInfo) (merchantAddress : String) (toAccountExists : Bool)
    (sendResult : Except String String) (paymentId : String) (now : Nat)
    (payments : List Payment) :
    ((handleSubmitTry pk amount sel pref merchantAddress toAccountExists sendResult
        paymentId now payments).success = false
      ∧ (handleSubmitTry pk amount sel pref merchantAddress toAccountExists sendResult
          paymentId now payments).payments = payments)
    ∨ ((handleSubmitTry pk amount sel pref merchantAddress toAccountExists sendResult
        paymentId now payments).success = true
      ∧ ∃ p, p.status = .completed
          ∧ (handleSubmitTry pk amount sel pref merchantAddress toAccountExists sendResult
              paymentId now payments).payments = payments ++ [p]) := by
  simp only [handleSubmitTry]
  split
  · cases hc : createPaymentTransaction (executeSwap sel pref amount 50).outputAmount
        pref.mint pk merchantAddress toAccountExists with
    | error e => exact Or.inl ⟨rfl, rfl⟩
    | ok tx =>
      cases sendResult with
      | error e => exact Or.inl ⟨rfl, rfl⟩
      | ok sig =>
        refine Or.inr ⟨rfl, ⟨paymentId, (executeSwap sel pref amount 50).outputAmount,
          pref.mint, .completed, now, merchantAddress, some pk, some sig⟩, rfl, rfl⟩
  · cases hc : createPaymentTransaction amount sel.mint pk merchantAddress toAccountExists with
    | error e => exact Or.inl ⟨rfl, rfl⟩
    | ok tx =>
      cases sendResult with
      | error e => exact Or.inl ⟨rfl, rfl⟩
      | ok sig =>
        refine Or.inr ⟨rfl, ⟨paymentId, amount, sel.mint, .completed, now,
          merchantAddress, some pk, some sig⟩, rfl, rfl⟩

theorem handleSubmit_payments_cases (publicKey : Option String) (quote : Option Quote)
    (tokenBalance : Option ℚ) (amount : ℚ) (sel pref : TokenInfo)
    (merchantAddress : String) (toAccountExists : Bool)
    (sendResult : Except String String) (paymentId : String) (now : Nat)
    (payments : List Payment) (priorStatus : FormStatus) :
    ((handleSubmit publicKey quote tokenBalance amount sel pref merchantAddress
        toAccountExists sendResult paymentId now payments priorStatus).success = false
      ∧ (handleSubmit publicKey quote tokenBalance amount sel pref merchantAddress
          toAccountExists sendResult paymentId now payments priorStatus).payments = payments)
    ∨ ((handleSubmit publicKey quote tokenBalance amount sel pref merchantAddress
        toAccountExists sendResult paymentId now payments priorStatus).success = true
      ∧ ∃ p, p.status = .completed
          ∧ (handleSubmit publicKey quote tokenBalance amount sel pref merchantAddress
              toAccountExists sendResult paymentId now payments priorStatus).payments
            = payments ++ [p]) := by
  cases publicKey with
  | none => exact Or.inl ⟨rfl, rfl⟩
  | some pk =>
    cases quote with
    | none => exact Or.inl ⟨rfl, rfl⟩
    | some q =>
      cases tokenBalance with
      | none =>
        exact handleSubmitTry_payments_cases pk amount sel pref merchantAddress
          toAccountExists sendResult paymentId now payments
      | some balance =>
        have hred : handleSubmit (some pk) (some q) (some balance) amount sel pref
            merchantAddress toAccountExists sendResult paymentId now payments priorStatus
            = if balance < amount then
                ⟨payments, priorStatus, some "Insufficient balance.", false⟩
              else
                handleSubmitTry pk amount sel pref merchantAddress toAccountExists
                  sendResult paymentId now payments := rfl
        rw [hred]
        by_cases hb : balance < amount
        · rw [if_pos hb]
          exact Or.inl ⟨rfl, rfl⟩
        · rw [if_neg hb]
          exact handleSubmitTry_payments_cases pk amount sel pref merchantAddress
            toAccountExists sendResult paymentId now payments

/-- C2, amended: a Payment record is created only when the payment flow completes
successfully — a successful run appends exactly one record with status
`completed` via `handlePaymentComplete`; a guard rejection or a failed run
leaves the payment list unchanged — and no previously recorded Payment is ever
removed or mutated (the prior list is always a prefix of the new one). -/
theorem payment_record_append_only (publicKey : Option String) (quote : Option Quote)
    (tokenBalance : Option ℚ) (amount : ℚ) (sel pref : TokenInfo)
    (merchantAddress : String) (toAccountExists : Bool)
    (sendResult : Except String String) (paymentId : String) (now : Nat)
    (payments : List Payment) (priorStatus : FormStatus) :
    ((handleSubmit publicKey quote tokenBalance amount sel pref merchantAddress
        toAccountExists sendResult paymentId now payments priorStatus).success = false →
      (handleSubmit publicKey quote tokenBalance amount sel pref merchantAddress
        toAccountExists sendResult paymentId now payments priorStatus).payments = payments)
    ∧ ((handleSubmit publicKey quote tokenBalance amount sel pref merchantAddress
        toAccountExists sendResult paymentId now payments priorStatus).success = true →
      ∃ p, p.status = .completed
        ∧ (handleSubmit publicKey quote tokenBalance amount sel pref merchantAddress
            toAccountExists sendResult paymentId now payments priorStatus).payments
          = handlePaymentComplete payments p)
    ∧ (handleSubmit publicKey quote tokenBalance amount sel pref merchantAddress
        toAccountExists sendResult paymentId now payments priorStatus).payments.take
        payments.length = payments := by
  rcases handleSubmit_payments_cases publicKey quote tokenBalance amount sel pref
      merchantAddress toAccountExists sendResult paymentId now payments priorStatus with
    ⟨hs, hp⟩ | ⟨hs, p, hps, hp⟩
  · refine ⟨fun _ => hp, fun h => ?_, ?_⟩
    · rw [hs] at h
      cases h
    · rw [hp]
      simp
  · refine ⟨fun h => ?_, fun _ => ⟨p, hps, hp⟩, ?_⟩
    · rw [hs] at h
      cases h
    · rw [hp]
      exact List.take_left _ _

theorem payment_record_append_only_witness :
    (handleSubmit (some "2qXdVr7JKRm4QfVA11vZ6FHPqvZXP4HxMrmdRP7isnKW")
        (some (sameTokenQuote 2 TOKENS_USDC TOKENS_USDC)) none 2
        TOKENS_USDC TOKENS_USDC "5YNmS1R9nNSCDzb5a7mMJ1dwK9uHeAAF4CmPEwKgVWc8" true
        (.error "Failed to send transaction") "payment-18" 9
        [⟨"payment-1", 10.5, "EPjFWdd5AufqSSqeM2qN1xzybapC8G4wEGGkZwyTDt1v",
          .completed, 0, "merchant-1", none, none⟩] .idle).payments
      = [⟨"payment-1", 10.5, "EPjFWdd5AufqSSqeM2qN1xzybapC8G4wEGGkZwyTDt1v",
          .completed, 0, "merchant-1", none, none⟩] :=
  (payment_record_append_only (some "2qXdVr7JKRm4QfVA11vZ6FHPqvZXP4HxMrmdRP7isnKW")
      (some (sameTokenQuote 2 TOKENS_USDC TOKENS_USDC)) none 2
      TOKENS_USDC TOKENS_USDC "5YNmS1R9nNSCDzb5a7mMJ1dwK9uHeAAF4CmPEwKgVWc8" true
      (.error "Failed to send transaction") "payment-18" 9
      [⟨"payment-1", 10.5, "EPjFWdd5AufqSSqeM2qN1xzybapC8G4wEGGkZwyTDt1v",
        .completed, 0, "merchant-1", none, none⟩] .idle).1 (by with_unfolding_all rfl)

/-- Token outside the registry and the rate table, used to exercise the
unresolvable-identifier paths. -/
def XYZ : TokenInfo := ⟨"XYZ", "Example", "Xyz11111111111111111111111111111111111111111", 4, none⟩

/-- C3, counterexample: with a token that resolves in neither the registry nor
the rate table, `getQuote` still succeeds (in both argument positions) instead of
failing with a TokenNotFound error — the quote operation has no failure mode. -/
theorem getQuote_succeeds_on_unregistered_token :
    TOKENS.find? (fun t => t.mint = XYZ.mint) = none
    ∧ TOKENS.find? (fun t => t.symbol = XYZ.symbol) = none
    ∧ (getQuote XYZ TOKENS_USDC 1).isOk = true
    ∧ (getQuote TOKENS_USDC XYZ 1).isOk = true := ⟨rfl, rfl, rfl, rfl⟩

/-- C3, amended: the quote operation never fails — for every pair of tokens and
every amount `getQuote` returns a successful quote, since it does not consult the
token registry and its try-block contains no throwing operation; and whenever the
symbol pair has no direct entry, no inverse entry, and no USDC bridge (either
bridge leg missing), the exchange rate falls back to exactly 1 instead of raising
TokenNotFound. -/
theorem getQuote_never_fails_fallback_rate (tin tout : TokenInfo) (amount : ℚ) :
    (getQuote tin tout amount).isOk = true
    ∧ (rateEntry tin.symbol tout.symbol = none →
        rateEntry tout.symbol tin.symbol = none →
        (rateEntry tin.symbol "USDC" = none ∨ rateEntry "USDC" tout.symbol = none) →
        getMockExchangeRate tin.symbol tout.symbol = 1) := by
  refine ⟨rfl, fun h1 h2 h3 => ?_⟩
  unfold getMockExchangeRate
  rw [h1, h2]
  rcases h3 with h3 | h3
  · rw [h3]
  · rw [h3]
    cases rateEntry tin.symbol "USDC" with
    | none => rfl
    | some r => rfl

theorem getQuote_never_fails_fallback_rate_witness :
    ((getQuote TOKENS_SOL XYZ 1).isOk = true
      ∧ getMockExchangeRate TOKENS_SOL.symbol XYZ.symbol = 1)
    ∧ ((getQuote XYZ TOKENS_USDT 1).isOk = true
      ∧ getMockExchangeRate XYZ.symbol TOKENS_USDT.symbol = 1) :=
  ⟨⟨(getQuote_never_fails_fallback_rate TOKENS_SOL XYZ 1).1,
    (getQuote_never_fails_fallback_rate TOKENS_SOL XYZ 1).2 rfl rfl (Or.inr rfl)⟩,
   ⟨(getQuote_never_fails_fallback_rate XYZ TOKENS_USDT 1).1,
    (getQuote_never_fails_fallback_rate XYZ TOKENS_USDT 1).2 rfl rfl (Or.inl rfl)⟩⟩

/-- C4, counterexample: `getQuote` applied to the same token twice (BONK, amount
1 > 0) does not return the claimed identity pass-through — the USDC bridge gives
rate 0.975, so the output amount is 97500 base units against an input amount of
100000, the fee is 300 base units rather than 0, and the price impact is 0.1
rather than 0. -/
theorem getQuote_same_token_not_identity :
    (0 : ℚ) < 1
    ∧ (getQuote TOKENS_BONK TOKENS_BONK 1).toOption.map Quote.inAmount = some 100000
    ∧ (getQuote TOKENS_BONK TOKENS_BONK 1).toOption.map Quote.outAmount = some 97500
    ∧ (getQuote TOKENS_BONK TOKENS_BONK 1).toOption.map Quote.platformFeeAmount = some 300
    ∧ (getQuote TOKENS_BONK TOKENS_BONK 1).toOption.map Quote.priceImpactPct = some 0.1
    ∧ (97500 : ℚ) ≠ 100000 ∧ (300 : ℚ) ≠ 0 ∧ (0.1 : ℚ) ≠ 0 := by
  refine ⟨by norm_num, by with_unfolding_all rfl, by with_unfolding_all rfl,
    by with_unfolding_all rfl, by with_unfolding_all rfl, by norm_num, by norm_num, by norm_num⟩

/-- C4, amended: the identity pass-through quote for matching tokens — output
amount equal to input amount, fee 0, price impact 0 — is produced by the
PaymentForm quote effect, which builds it inline and bypasses `getQuote` whenever
the two mints are equal; `getQuote` itself has no same-token special case. -/
theorem form_same_token_quote_identity (t : TokenInfo) (amount : ℚ) (h : 0 < amount) :
    fetchQuote amount t t = some (sameTokenQuote amount t t)
    ∧ (sameTokenQuote amount t t).outAmount = (sameTokenQuote amount t t).inAmount
    ∧ (sameTokenQuote amount t t).platformFeeAmount = 0
    ∧ (sameTokenQuote amount t t).feeBps = 0
    ∧ (sameTokenQuote amount t t).priceImpactPct = 0 := by
  refine ⟨?_, rfl, rfl, rfl, rfl⟩
  unfold fetchQuote
  rw [if_pos h, if_pos rfl]

theorem form_same_token_quote_identity_witness :
    fetchQuote 1 TOKENS_USDC TOKENS_USDC = some (sameTokenQuote 1 TOKENS_USDC TOKENS_USDC)
    ∧ (sameTokenQuote 1 TOKENS_USDC TOKENS_USDC).outAmount
      = (sameTokenQuote 1 TOKENS_USDC TOKENS_USDC).inAmount
    ∧ (sameTokenQuote 1 TOKENS_USDC TOKENS_USDC).platformFeeAmount = 0
    ∧ (sameTokenQuote 1 TOKENS_USDC TOKENS_USDC).feeBps = 0
    ∧ (sameTokenQuote 1 TOKENS_USDC TOKENS_USDC).priceImpactPct = 0 :=
  form_same_token_quote_identity TOKENS_USDC 1 one_pos

/-- C5, counterexample: USDC→BONK and BONK→USDC are both direct entries of the
rate table, yet their product is 0.975 — a 2.5% deviation from reciprocity, far
beyond rounding tolerance. -/
theorem bonk_usdc_rates_not_reciprocal :
    rateEntry "USDC" "BONK" = some 6500
    ∧ rateEntry "BONK" "USDC" = some 0.00015
    ∧ getMockExchangeRate "USDC" "BONK" * getMockExchangeRate "BONK" "USDC" = 0.975
    ∧ (0.975 : ℚ) < 1 - 1 / 100 := by
  refine ⟨rfl, rfl, by with_unfolding_all rfl, by norm_num⟩

/-- C5, amended: reciprocity holds exactly for the three SOL pairs of the rate
table; for USDC/USDT the product of the two direct rates is 0.999996 (within
10⁻⁴ of 1); for BONK against USDC and USDT the direct rates are not reciprocal —
the products are 0.975 and 0.978 respectively. -/
theorem rate_reciprocity_by_pair :
    getMockExchangeRate "SOL" "USDC" * getMockExchangeRate "USDC" "SOL" = 1
    ∧ getMockExchangeRate "SOL" "USDT" * getMockExchangeRate "USDT" "SOL" = 1
    ∧ getMockExchangeRate "SOL" "BONK" * getMockExchangeRate "BONK" "SOL" = 1
    ∧ getMockExchangeRate "USDC" "USDT" * getMockExchangeRate "USDT" "USDC" = 0.999996
    ∧ (1 : ℚ) - 1 / 10000 < 0.999996 ∧ (0.999996 : ℚ) < 1
    ∧ getMockExchangeRate "USDC" "BONK" * getMockExchangeRate "BONK" "USDC" = 0.975
    ∧ getMockExchangeRate "USDT" "BONK" * getMockExchangeRate "BONK" "USDT" = 0.978 := by
  refine ⟨by with_unfolding_all rfl, by with_unfolding_all rfl, by with_unfolding_all rfl,
    by with_unfolding_all rfl, by norm_num, by norm_num,
    by with_unfolding_all rfl, by with_unfolding_all rfl⟩
